import Mathlib

/- Verification of the physics-perception feature library: attributes,
relations, the object-node perception cache, the selector engine and the
solution side-classification.  Activities are JS numbers in [0,1]; every
comparison the verified code performs on them is an order comparison
against a rational threshold, so activities delivered by the oracle or by
sibling percepts are modelled as rationals. -/

namespace PhysPerc

/-! ## Supports relation (SupportsRelationship) -/

/-- Everything `SupportsRelationship.prototype.checkSupports` observes about
the scene when ranking how object A supports object B: the activities of the
percepts it queries, the two counterfactual probes it runs inside a 0-time
`analyzeFuture` sandbox with `bodyA.SetActive(false)` applied, and whether
the two nodes are the same node (`A === B`). -/
structure SupportsEnv where
  /-- the two object nodes are the same node (`A === B`) -/
  sameNode : Bool
  /-- activity of `B.getAttr("moves")` -/
  movesB : ℚ
  /-- activity of `A.getRel("touch", other := B)` -/
  touchAB : ℚ
  /-- activity of a fresh `MovesAttribute(B.obj)` perceived inside the 0-time
  sandbox in which A was deactivated -/
  movesBNoA : ℚ
  /-- activity of `B.getRel("on_top_of", other := A)` -/
  onTopBA : ℚ
  /-- activity of `A.getRel("close", other := B)` -/
  closeAB : ℚ
  /-- label of `B.getAttr("stability")` -/
  stabilityB : String
  /-- label of a fresh `StabilityAttribute(B.obj)` perceived inside the 0-time
  sandbox in which A was deactivated -/
  stabilityBNoA : String

/-- Translation of `SupportsRelationship.prototype.checkSupports`.  All four
thresholds (`moves_threshold`, `touches_threshold`, `ontopof_threshold`,
`close_threshold`) are 0.5 in the source. -/
def checkSupports (e : SupportsEnv) : String :=
  if e.sameNode then "not"
  else if e.movesB > 1/2 then "not"
  else if e.movesBNoA > 1/2 then
    (if e.touchAB > 1/2 then "directly" else "indirectly")
  else if e.onTopBA > 1/2 then "stabilizes"
  else if e.closeAB > 1/2 ∧ e.stabilityB = "stable" ∧ e.stabilityBNoA ≠ "stable" then
    "stabilizes"
  else "not"

/-- Translation of `SupportsRelationship.prototype.get_activity`; the source
raises "unknown support value" on any other value, modelled as `none`. -/
def supportsActivity (val : String) : Option ℚ :=
  if val = "directly" then some 1
  else if val = "indirectly" then some (7/10)
  else if val = "stabilizes" then some (4/10)
  else if val = "not" then some 0
  else none

/-- The four-level decision procedure exactly as claim C1 words it: the
resulting label together with the activity it is mapped to. -/
def claimedSupports (e : SupportsEnv) : String × ℚ :=
  if e.sameNode = true ∨ e.movesB > 1/2 then ("not", 0)
  else if e.movesBNoA > 1/2 then
    (if e.touchAB > 1/2 then ("directly", 1) else ("indirectly", 7/10))
  else if e.onTopBA > 1/2 ∨
      (e.closeAB > 1/2 ∧ e.stabilityB = "stable" ∧ e.stabilityBNoA ≠ "stable") then
    ("stabilizes", 4/10)
  else ("not", 0)

/-- C1: for distinct object nodes A and B the supports relation follows the
four-level decision procedure of the claim — `not` (0.0) when A = B or when
moves(B) exceeds 0.5; else, with A deactivated in a 0-time sandbox, if the
freshly perceived moves(B) exceeds 0.5 the result is `directly` (1.0) when
touch(A,B) exceeds 0.5 and `indirectly` (0.7) otherwise; if B does not start
moving, `stabilizes` (0.4) when on_top_of(B,A) exceeds 0.5 or when close(A,B)
exceeds 0.5, B is labelled stable, and the re-evaluated stability without A
is no longer stable; `not` in all remaining cases. -/
theorem supports_four_level_decision (e : SupportsEnv) :
    checkSupports e = (claimedSupports e).1 ∧
    supportsActivity (checkSupports e) = some (claimedSupports e).2 := by
  have hval : checkSupports e = (claimedSupports e).1 := by
    unfold checkSupports claimedSupports
    split_ifs <;> first | rfl | tauto
  have hact : supportsActivity (claimedSupports e).1 = some (claimedSupports e).2 := by
    unfold claimedSupports
    split_ifs <;> simp [supportsActivity]
  exact ⟨hval, by rw [hval]; exact hact⟩

/-! ## Stability attribute (StabilityAttribute) -/

/-- Direction of a counterfactual test push. -/
inductive PushDir
  | left
  | right
deriving DecidableEq

/-- What `StabilityAttribute.prototype.checkStability` measures 0.3 seconds
after one test push inside `analyzeFuture`: the linear speed
(`body.m_linearVelocity.Length()`), the distance the body moved
(`oracle.pscene.getBodyDistance`) and the normalized rotation change
(`Point.norm_angle(body.GetAngle() - rot0)`). -/
structure PushOutcome where
  v : ℚ
  dx : ℚ
  drot : ℚ

/-- Everything `checkStability` observes about the body: static flag, circle
flag, current speed, and the measurements after each of the four possible
pushes (direction, soft?). -/
structure StabilityEnv where
  isStatic : Bool
  isCircle : Bool
  v0 : ℚ
  push : PushDir → Bool → PushOutcome

/-- The threshold scaling used for a soft push (`soft ? 2/3 : 1.0`). -/
def pushFactor (soft : Bool) : ℚ :=
  if soft then 2/3 else 1

/-- Translation of the inner `is_stable(dir, soft)` closure of
`checkStability` (constants of the source: `max_v = 0.4`, `max_dx = 0.2`,
`max_drot = 0.157`, `max_drot_circle = 1.047`, soft factor 2/3). -/
def isStableAfterPush (e : StabilityEnv) (dir : PushDir) (soft : Bool) : Bool :=
  if (e.push dir soft).v ≥ 2/5 * pushFactor soft then false
  else if (e.push dir soft).dx ≥ 1/5 * pushFactor soft then false
  else if (e.isCircle = true ∧ |(e.push dir soft).drot| ≥ 1047/1000 * pushFactor soft) ∨
      (¬e.isCircle = true ∧ |(e.push dir soft).drot| ≥ 157/1000 * pushFactor soft) then false
  else true

/-- Translation of `StabilityAttribute.prototype.checkStability`
(`max_initial_v = 0.25`). -/
def checkStability (e : StabilityEnv) : String :=
  if e.isStatic then "stable"
  else if e.v0 > 1/4 then "moving"
  else if isStableAfterPush e .left false && isStableAfterPush e .right false then "stable"
  else if isStableAfterPush e .left true && isStableAfterPush e .right true then
    "slightly unstable"
  else "unstable"

/-- Translation of `StabilityAttribute.prototype.get_label`; the source
returns undefined for any other value, modelled as `none`. -/
def stabilityLabel (val : String) : Option String :=
  if val = "stable" ∨ val = "slightly unstable" then some "stable"
  else if val = "moving" ∨ val = "unstable" then some "unstable"
  else none

/-- One push passes, in the words of claim C2: it ends with speed < 0.4·f,
moved distance < 0.2·f and absolute rotation change < 0.157·f rad
(< 1.047·f rad for circles), where f scales the thresholds. -/
def claimedPushPasses (e : StabilityEnv) (dir : PushDir) (soft : Bool) : Prop :=
  (e.push dir soft).v < 2/5 * pushFactor soft ∧
  (e.push dir soft).dx < 1/5 * pushFactor soft ∧
    (if e.isCircle then |(e.push dir soft).drot| < 1047/1000 * pushFactor soft
     else |(e.push dir soft).drot| < 157/1000 * pushFactor soft)

instance (e : StabilityEnv) (dir : PushDir) (soft : Bool) :
    Decidable (claimedPushPasses e dir soft) := by
  unfold claimedPushPasses; infer_instance

/-- The internal stability value, in the words of claim C2. -/
def claimedStability (e : StabilityEnv) : String :=
  if e.isStatic then "stable"
  else if e.v0 > 1/4 then "moving"
  else if claimedPushPasses e .left false ∧ claimedPushPasses e .right false then "stable"
  else if claimedPushPasses e .left true ∧ claimedPushPasses e .right true then
    "slightly unstable"
  else "unstable"

/-- The reported label, in the words of claim C2. -/
def claimedStabilityLabel (e : StabilityEnv) : String :=
  if claimedStability e = "stable" ∨ claimedStability e = "slightly unstable" then "stable"
  else "unstable"

theorem ite3_false_true (c1 c2 c3 : Prop) [Decidable c1] [Decidable c2] [Decidable c3] :
    ((if c1 then false else if c2 then false else if c3 then false else true) = true) ↔
      (¬c1 ∧ ¬c2 ∧ ¬c3) := by
  split_ifs <;> simp_all

theorem isStableAfterPush_iff (e : StabilityEnv) (dir : PushDir) (soft : Bool) :
    isStableAfterPush e dir soft = true ↔ claimedPushPasses e dir soft := by
  unfold isStableAfterPush claimedPushPasses
  rw [ite3_false_true]
  rcases hc : e.isCircle <;> simp [hc, not_le, not_or]

/-- C2: the internal stability value is computed exactly as claim C2 words
it (static → stable; |v| > 0.25 → moving; both medium pushes pass → stable;
both small pushes pass the 2/3-scaled thresholds → slightly unstable;
otherwise unstable), and the reported label collapses stable and slightly
unstable to "stable" and moving and unstable to "unstable". -/
theorem stability_levels_and_label (e : StabilityEnv) :
    checkStability e = claimedStability e ∧
    stabilityLabel (checkStability e) = some (claimedStabilityLabel e) := by
  have hval : checkStability e = claimedStability e := by
    unfold checkStability claimedStability
    simp only [Bool.and_eq_true, isStableAfterPush_iff]
  refine ⟨hval, ?_⟩
  have hmem : claimedStability e = "stable" ∨ claimedStability e = "moving" ∨
      claimedStability e = "slightly unstable" ∨ claimedStability e = "unstable" := by
    unfold claimedStability
    split_ifs <;> simp
  rw [hval]
  unfold claimedStabilityLabel
  rcases hmem with h | h | h | h <;> rw [h] <;> simp [stabilityLabel]

/-! ## Solution counters and side classification (Solution) -/

/-- Counter-and-side state of a `Solution`.  The constructor initialises all
counters to 0 and `scene_pair_count` to 8; `other_side` (maintained by
`setMainSide`) is derivable from `main_side` and is not tracked. -/
structure SolutionState where
  lchecks : ℕ
  rchecks : ℕ
  lmatches : ℕ
  rmatches : ℕ
  scene_pair_count : ℕ
  main_side : String
deriving DecidableEq

/-- The `main_side` update chain at the end of
`Solution.prototype.checkScenePair` (each branch is a `setMainSide` call). -/
def updateMainSide (s : SolutionState) : SolutionState :=
  if s.lmatches = 0 ∧ s.rmatches = s.rchecks then { s with main_side := "right" }
  else if s.rmatches = 0 ∧ s.lmatches = s.lchecks then { s with main_side := "left" }
  else if s.lmatches > 0 ∧ s.rmatches = s.rchecks then { s with main_side := "both" }
  else if s.rmatches > 0 ∧ s.lmatches = s.lchecks then { s with main_side := "both" }
  else { s with main_side := "fail" }

/-- Translation of `Solution.prototype.isSolution`. -/
def isSolution (s : SolutionState) : Bool :=
  (s.rmatches == 0 && s.lmatches == s.scene_pair_count) ||
  (s.lmatches == 0 && s.rmatches == s.scene_pair_count)

/-- Counter effect of `Solution.prototype.checkScenePair` on one scene pair:
the left scene bumps `lchecks` (and `lmatches` when the selector applied to
it yields a non-empty group, abstracted here as `leftMatches`), the right
scene bumps `rchecks` and `rmatches`, and then the `main_side` chain runs. -/
def checkScenePair (s : SolutionState) (leftMatches rightMatches : Bool) : SolutionState :=
  updateMainSide
    { s with
      lchecks := s.lchecks + 1
      lmatches := s.lmatches + (if leftMatches then 1 else 0)
      rchecks := s.rchecks + 1
      rmatches := s.rmatches + (if rightMatches then 1 else 0) }

/-- C4: after the counter update in `checkScenePair`, a state whose counters
satisfy lmatches = 0, rmatches = rchecks and rchecks = scene_pair_count has
`isSolution()` true and `main_side` equal to "right"; symmetrically,
rmatches = 0 with lmatches = lchecks = scene_pair_count gives `isSolution()`
true and `main_side` equal to "left". -/
theorem updateMainSide_counter_eq (t : SolutionState) :
    (updateMainSide t).lchecks = t.lchecks ∧ (updateMainSide t).rchecks = t.rchecks ∧
    (updateMainSide t).lmatches = t.lmatches ∧ (updateMainSide t).rmatches = t.rmatches ∧
    (updateMainSide t).scene_pair_count = t.scene_pair_count := by
  unfold updateMainSide
  split_ifs <;> exact ⟨rfl, rfl, rfl, rfl, rfl⟩

theorem solution_side_classification (s : SolutionState) (lm rm : Bool) :
    ((checkScenePair s lm rm).lmatches = 0 →
     (checkScenePair s lm rm).rmatches = (checkScenePair s lm rm).rchecks →
     (checkScenePair s lm rm).rchecks = (checkScenePair s lm rm).scene_pair_count →
     isSolution (checkScenePair s lm rm) = true ∧
       (checkScenePair s lm rm).main_side = "right") ∧
    ((checkScenePair s lm rm).rmatches = 0 →
     (checkScenePair s lm rm).lmatches = (checkScenePair s lm rm).lchecks →
     (checkScenePair s lm rm).lchecks = (checkScenePair s lm rm).scene_pair_count →
     isSolution (checkScenePair s lm rm) = true ∧
       (checkScenePair s lm rm).main_side = "left") := by
  have hck : checkScenePair s lm rm = updateMainSide
      { s with
        lchecks := s.lchecks + 1
        lmatches := s.lmatches + (if lm then 1 else 0)
        rchecks := s.rchecks + 1
        rmatches := s.rmatches + (if rm then 1 else 0) } := rfl
  set t : SolutionState :=
    { s with
      lchecks := s.lchecks + 1
      lmatches := s.lmatches + (if lm then 1 else 0)
      rchecks := s.rchecks + 1
      rmatches := s.rmatches + (if rm then 1 else 0) } with ht
  have hc := updateMainSide_counter_eq t
  constructor
  · intro h1 h2 h3
    rw [hck] at h1 h2 h3 ⊢
    rw [hc.2.2.1] at h1
    rw [hc.2.2.2.1, hc.2.1] at h2
    rw [hc.2.1, hc.2.2.2.2] at h3
    constructor
    · simp only [isSolution, hc.2.2.1, hc.2.2.2.1, hc.2.2.2.2, Bool.or_eq_true,
        Bool.and_eq_true, beq_iff_eq]
      exact Or.inr ⟨h1, h2.trans h3⟩
    · unfold updateMainSide
      rw [if_pos ⟨h1, h2⟩]
  · intro h1 h2 h3
    rw [hck] at h1 h2 h3 ⊢
    rw [hc.2.2.2.1] at h1
    rw [hc.2.2.1, hc.1] at h2
    rw [hc.1, hc.2.2.2.2] at h3
    have hne : ¬(t.lmatches = 0 ∧ t.rmatches = t.rchecks) := by
      rintro ⟨hz, _⟩
      rw [h2] at hz
      exact Nat.succ_ne_zero s.lchecks hz
    constructor
    · simp only [isSolution, hc.2.2.1, hc.2.2.2.1, hc.2.2.2.2, Bool.or_eq_true,
        Bool.and_eq_true, beq_iff_eq]
      exact Or.inl ⟨h1, h2.trans h3⟩
    · unfold updateMainSide
      rw [if_neg hne, if_pos ⟨h1, h2⟩]

/-- Witness for C4 at concrete counter states: a pair update that leaves
lmatches = 0 and rmatches = rchecks = scene_pair_count = 8, and one that
leaves rmatches = 0 and lmatches = lchecks = scene_pair_count = 8. -/
theorem solution_side_classification_witness :
    (isSolution (checkScenePair ⟨7, 7, 0, 7, 8, "fail"⟩ false true) = true ∧
      (checkScenePair ⟨7, 7, 0, 7, 8, "fail"⟩ false true).main_side = "right") ∧
    (isSolution (checkScenePair ⟨7, 7, 7, 0, 8, "fail"⟩ true false) = true ∧
      (checkScenePair ⟨7, 7, 7, 0, 8, "fail"⟩ true false).main_side = "left") :=
  ⟨(solution_side_classification ⟨7, 7, 0, 7, 8, "fail"⟩ false true).1
      (by decide) (by decide) (by decide),
   (solution_side_classification ⟨7, 7, 7, 0, 8, "fail"⟩ true false).2
      (by decide) (by decide) (by decide)⟩

/-! ## Shape attributes (ShapeAttribute, SquareAttribute, RectangleAttribute) -/

/-- Geometric data of a polygon as the external shape contract delivers it
(after `order_vertices`): the closed flag, one corner angle per vertex and
the edge lengths.  The source compares corner angles in radians against
70·π/180 and 110·π/180; angles are recorded here in degrees, which yields
the same comparisons through the strictly monotone map x ↦ x·π/180. -/
structure PolygonData where
  closed : Bool
  angles : List ℚ
  edges : List ℚ
deriving DecidableEq

/-- A shape is a polygon, a circle, or something else (the two `instanceof`
tests of the source). -/
inductive ShapeData
  | poly (p : PolygonData)
  | circle
  | unknownKind
deriving DecidableEq

/-- Translation of `ShapeAttribute.isRectangle` (duplicated verbatim in the
source as `SquareAttribute.isRectangle` and `RectangleAttribute.isRectangle`):
4 corners, none with an angle above 110° or below 70°. -/
def isRectangleCheck (p : PolygonData) : Bool :=
  if p.angles.length ≠ 4 then false
  else p.angles.all (fun a => !(decide (a > 110) || decide (a < 70)))

/-- Ascending edge lengths, as `get_edge_lengths(true)` returns them. -/
def sortedEdges (p : PolygonData) : List ℚ :=
  List.insertionSort (fun a b => a ≤ b) p.edges

/-- The shortest/longest edge ratio (`edges[0]/edges[3]`) that the shape
classifiers test against 0.7. -/
def edgeRatio (p : PolygonData) : ℚ :=
  (sortedEdges p).getD 0 0 / (sortedEdges p).getD 3 0

/-- Translation of `ShapeAttribute.determineShape`; `angles.length` stands
for `pts.length`, one corner angle per vertex. -/
def determineShape (s : ShapeData) : String :=
  match s with
  | .poly p =>
    if !p.closed then "unknown"
    else if p.angles.length = 3 then "triangle"
    else if isRectangleCheck p then
      (if edgeRatio p < 7/10 then "rectangle" else "square")
    else "unknown"
  | .circle => "circle"
  | .unknownKind => "unknown"

/-- Translation of `ShapeAttribute.prototype.get_activity`
(`this.val == "?" ? 0 : 1`). -/
def shapeActivity (val : String) : ℚ :=
  if val = "?" then 0 else 1

/-- Translation of `SquareAttribute.squareness`. -/
def squareness (s : ShapeData) : ℚ :=
  match s with
  | .poly p =>
    if !p.closed then 0
    else if isRectangleCheck p then (if edgeRatio p < 7/10 then 3/10 else 1)
    else 0
  | _ => 0

/-- Translation of `RectangleAttribute.rectness`. -/
def rectness (s : ShapeData) : ℚ :=
  match s with
  | .poly p =>
    if !p.closed then 0
    else if isRectangleCheck p then (if edgeRatio p < 7/10 then 1 else 4/10)
    else 0
  | _ => 0

/-- An open polygon: `determineShape` leaves it unclassified ("unknown"). -/
def openPolygon : PolygonData :=
  ⟨false, [60, 60, 60], [1, 1, 1]⟩

/-- C6 counterexample: for an unclassified object (an open polygon, where
`determineShape` yields "unknown") the shape activity is not 0 — the source
tests `val == "?"`, a sentinel `determineShape` never produces, so the
activity is 1 even for unclassified objects. -/
theorem shape_activity_unknown_counterexample :
    determineShape (.poly openPolygon) = "unknown" ∧
    shapeActivity (determineShape (.poly openPolygon)) ≠ 0 := by
  have h : determineShape (.poly openPolygon) = "unknown" := by
    norm_num [determineShape, openPolygon]
  refine ⟨h, ?_⟩
  rw [h, shapeActivity, if_neg (by decide : ¬("unknown" = "?"))]
  norm_num

/-- The sentinel "?" is never among the values `determineShape` returns. -/
theorem determineShape_ne_sentinel (s : ShapeData) : determineShape s ≠ "?" := by
  rcases s with p | _ | _ <;> simp only [determineShape] <;>
    first
    | decide
    | (split_ifs <;> decide)

/-- C6 (amended): the shape attribute activity is 1 both when the object was
classified as circle, triangle, rectangle or square and when it was not
classified — the 0 branch would require the sentinel "?", which
`determineShape` never returns. -/
theorem shape_activity_always_one (s : ShapeData) :
    shapeActivity (determineShape s) = 1 := by
  unfold shapeActivity
  rw [if_neg (determineShape_ne_sentinel s)]

/-- The concrete polygon of claim C7: closed, four 85° corners, edge
lengths [2, 2, 5, 5]. -/
def claimRectangle : PolygonData :=
  ⟨true, [85, 85, 85, 85], [2, 2, 5, 5]⟩

/-- C7 counterexample: on the claimed polygon the conjunction of claim C7
fails, because `SquareAttribute.squareness` returns the soft fallback 0.3
for a non-square rectangle, not 0. -/
theorem rect_scenario_counterexample :
    ¬(determineShape (.poly claimRectangle) = "rectangle" ∧
      rectness (.poly claimRectangle) = 1 ∧
      squareness (.poly claimRectangle) = 0) := by
  norm_num [determineShape, claimRectangle, isRectangleCheck, edgeRatio, sortedEdges,
    squareness, rectness, List.insertionSort, List.orderedInsert]

/-- C7 (amended): for the closed polygon with four 85° corners and edge
lengths [2, 2, 5, 5], the shape label is "rectangle", the rect activity is
1, and the square activity is the soft fallback 0.3. -/
theorem rect_scenario_values :
    determineShape (.poly claimRectangle) = "rectangle" ∧
    rectness (.poly claimRectangle) = 1 ∧
    squareness (.poly claimRectangle) = 3/10 := by
  norm_num [determineShape, claimRectangle, isRectangleCheck, edgeRatio, sortedEdges,
    squareness, rectness, List.insertionSort, List.orderedInsert]

/-! ## Group attributes (CloseAttribute, FarAttribute, TouchAttribute,
CountAttribute) -/

/-- A group as the group attributes see it: the member list and the pairwise
surface distance the physics engine reports for the members at indices i and
j (`objs[i].phys_obj.distance(objs[j].phys_obj) / phys_scale`). -/
structure GroupData where
  objs : List ℕ
  dist : ℕ → ℕ → ℚ

/-- An edge of the pairwise-distance graph handed to `CloseAttribute.getMST`. -/
structure GEdge where
  a : ℕ
  b : ℕ
  dist : ℚ

/-- The edge list the group attributes build: one edge for every pair of
member indices i, j with j < i, in the loop order of the source. -/
def groupEdges (g : GroupData) : List GEdge :=
  (List.range g.objs.length).flatMap fun i => (List.range i).map fun j => ⟨i, j, g.dist i j⟩

/-- Index of the last set in `sets` containing `x`: the source scans all
sets and keeps overwriting its index variable, so the last hit wins (the
sets are disjoint, so at most one hit exists anyway). -/
def lastSetIndex (sets : List (List ℕ)) (x : ℕ) : Option ℕ :=
  ((sets.enum.filter fun e => e.2.contains x).getLast?).map fun e => e.1

/-- Union step of the source: all keys of the set at `ib` are added to the
set at `ia` and the set at `ib` is emptied. -/
def mergeSets (sets : List (List ℕ)) (ia ib : ℕ) : List (List ℕ) :=
  (sets.set ia (sets.getD ia [] ++ sets.getD ib [])).set ib []

/-- The sort comparator `(a, b) => a.dist - b.dist` as a stable sort by
nondecreasing distance; tie order never matters to the claims settled here. -/
def sortEdges (edges : List GEdge) : List GEdge :=
  List.insertionSort (fun x y => x.dist ≤ y.dist) edges

/-- Translation of `CloseAttribute.getMST` (Kruskal with the ad-hoc
set-array union of the source).  When neither endpoint is found the source
compares `undefined === undefined` and skips the edge; an edge with exactly
one endpoint found would crash the source and is unreachable from
`perceive`, modelled as a skip as well. -/
def getMST (nodes : List ℕ) (edges : List GEdge) : List GEdge :=
  (((sortEdges edges).foldl
    (fun st e =>
      let ia := lastSetIndex st.2 e.a
      let ib := lastSetIndex st.2 e.b
      if ia = ib then st
      else
        match ia, ib with
        | some ia0, some ib0 => (st.1 ++ [e], mergeSets st.2 ia0 ib0)
        | _, _ => st)
    (([], nodes.map fun n => [n]) : List GEdge × List (List ℕ)))).1

/-- Translation of `CloseAttribute.prototype.perceive`: the NaN the source
stores for groups of fewer than 2 objects is `none`; otherwise the distance
of the last MST edge (`undefined` on an empty MST, impossible here, would
also fail the NaN guard and is `none` too). -/
def closeAttrVal (g : GroupData) : Option ℚ :=
  if g.objs.length < 2 then none
  else ((getMST (List.range g.objs.length) (groupEdges g)).getLast?).map fun e => e.dist

/-- Translation of `CloseAttribute.prototype.get_activity`.  The
`CloseRelationship.membership` sigmoid `1 − 1/(1+exp(30·(0.2−d/100)))` is
transcendental and enters only on the non-NaN branch, so it is passed in as
the argument `mem`. -/
def closeAttrActivity (mem : ℚ → ℚ) (g : GroupData) : ℚ :=
  match closeAttrVal g with
  | none => 0
  | some v => mem v

/-- Minimum of a list of rationals, `none` when empty. -/
def minListQ : List ℚ → Option ℚ
  | [] => none
  | x :: xs => some (xs.foldl min x)

/-- All pairwise member distances (j < i, loop order of the source). -/
def pairDists (g : GroupData) : List ℚ :=
  (List.range g.objs.length).flatMap fun i => (List.range i).map fun j => g.dist i j

/-- Translation of `FarAttribute.prototype.perceive`: NaN for groups of
fewer than 2 objects is `none`; otherwise the smallest pairwise surface
distance (the source folds `min` starting from Infinity). -/
def farAttrVal (g : GroupData) : Option ℚ :=
  if g.objs.length < 2 then none else minListQ (pairDists g)

/-- Translation of `FarAttribute.prototype.get_activity`; the
`FarRelationship.membership` sigmoid `1/(1+exp(20·(0.25−d/100)))` is
transcendental and abstracted as `mem`, exactly as for `closeAttrActivity`. -/
def farAttrActivity (mem : ℚ → ℚ) (g : GroupData) : ℚ :=
  match farAttrVal g with
  | none => 0
  | some v => mem v

/-- Translation of `TouchRelationship.membership`: 1 for a surface distance
of at most 0.5 physics units, else 0. -/
def touchMembership (d : ℚ) : ℚ :=
  if d ≤ 1/2 then 1 else 0

/-- Translation of `TouchAttribute.prototype.perceive`: groups of fewer
than 2 objects get the sentinel distance 100 (not NaN); otherwise the last
MST edge distance as in `closeAttrVal`. -/
def touchAttrVal (g : GroupData) : Option ℚ :=
  if g.objs.length < 2 then some 100
  else ((getMST (List.range g.objs.length) (groupEdges g)).getLast?).map fun e => e.dist

/-- Translation of `TouchAttribute.prototype.get_activity`. -/
def touchAttrActivity (g : GroupData) : ℚ :=
  match touchAttrVal g with
  | none => 0
  | some v => touchMembership v

/-- Translation of `CountAttribute.prototype.get_activity`: always 1. -/
def countAttrActivity (_g : GroupData) : ℚ := 1

/-- Translation of `CountAttribute.prototype.get_label`. -/
def countAttrLabel (g : GroupData) : String :=
  if g.objs.length < 4 then toString g.objs.length else ">=4"

/-- The empty group. -/
def emptyGroup : GroupData :=
  ⟨[], fun _ _ => 0⟩

/-- C8 counterexample: the count attribute of a group with fewer than 2
objects has activity 1, not 0 — `CountAttribute.prototype.get_activity`
returns 1 unconditionally. -/
theorem group_small_count_counterexample :
    emptyGroup.objs.length < 2 ∧ countAttrActivity emptyGroup ≠ 0 := by
  refine ⟨by decide, ?_⟩
  norm_num [countAttrActivity]

/-- C8 (amended): on a group with fewer than 2 objects the group attributes
close, far and touching have activity 0 (never undefined), while count has
activity 1; this holds for any membership sigmoid. -/
theorem group_small_activities (g : GroupData) (memClose memFar : ℚ → ℚ)
    (h : g.objs.length < 2) :
    closeAttrActivity memClose g = 0 ∧ farAttrActivity memFar g = 0 ∧
    touchAttrActivity g = 0 ∧ countAttrActivity g = 1 := by
  refine ⟨?_, ?_, ?_, rfl⟩
  · unfold closeAttrActivity closeAttrVal
    rw [if_pos h]
  · unfold farAttrActivity farAttrVal
    rw [if_pos h]
  · unfold touchAttrActivity touchAttrVal
    rw [if_pos h]
    show touchMembership 100 = 0
    unfold touchMembership
    rw [if_neg (by norm_num)]

/-- Witness for C8 (amended) on the empty group with the identity in place
of the membership sigmoids. -/
theorem group_small_activities_witness :
    closeAttrActivity (fun x => x) emptyGroup = 0 ∧
    farAttrActivity (fun x => x) emptyGroup = 0 ∧
    touchAttrActivity emptyGroup = 0 ∧ countAttrActivity emptyGroup = 1 :=
  group_small_activities emptyGroup (fun x => x) (fun x => x) (by decide)

/-! ## ObjectNode perception cache (ObjectNode.getAttr / ObjectNode.getRel) -/

/-- Constancy flags of the registered object attributes
(`pbpSettings.obj_attrs`), read by `getAttr` as
`ObjectNode.attrs[key].constant`.  The registered non-constant attributes
are left_pos, left_most, right_pos, right_most, bottom_pos, top_pos,
top_most, single, on_ground, stability and can_move_up. -/
def objAttrConstant : String → Bool
  | "circle" | "square" | "rect" | "triangle" | "shape"
  | "small" | "large" | "moves" => true
  | _ => false

/-- Constancy flags of the registered object relations
(`pbpSettings.obj_rels`): only hits, gets_hit and collides are constant;
above, below, left_of, right_of, beside, far, close, on_top_of, touch and
supports are not. -/
def objRelConstant : String → Bool
  | "hits" | "gets_hit" | "collides" => true
  | _ => false

/-- An attribute percept as the cache sees it: a creation identifier (fresh
per `new` — equal identifiers mean the identical JS object), its key, and
the named oracle state it was perceived in (`none` when the oracle was in
no named state at perception time). -/
structure AttrPercept where
  id : ℕ
  key : String
  perceivedAt : Option String
deriving DecidableEq

/-- A relation percept; additionally records the `other` object. -/
structure RelPercept where
  id : ℕ
  key : String
  other : ℕ
  perceivedAt : Option String
deriving DecidableEq

/-- The `times` cache of one ObjectNode (`times[time][key]`, attribute
entries and relation-list entries), flattened to association lists keyed by
(time, key), plus the allocation counter for fresh percepts. -/
structure ONode where
  attrCache : List (String × String × AttrPercept)
  relCache : List (String × String × List RelPercept)
  fresh : ℕ
deriving DecidableEq

/-- Lookup `times[time][key]` for an attribute. -/
def lookupAttr (c : List (String × String × AttrPercept)) (t k : String) :
    Option AttrPercept :=
  (c.find? fun e => e.1 == t && e.2.1 == k).map fun e => e.2.2

/-- Lookup `times[time][key]` for a relation list. -/
def lookupRelList (c : List (String × String × List RelPercept)) (t k : String) :
    Option (List RelPercept) :=
  (c.find? fun e => e.1 == t && e.2.1 == k).map fun e => e.2.2

/-- Store `times[time][key] = l` for a relation list: overwrite the entry if
present, create it otherwise. -/
def setRelList (c : List (String × String × List RelPercept)) (t k : String)
    (l : List RelPercept) : List (String × String × List RelPercept) :=
  match c with
  | [] => [(t, k, l)]
  | e :: rest =>
    if e.1 == t && e.2.1 == k then (t, k, l) :: rest else e :: setRelList rest t k l

/-- Translation of `ObjectNode.prototype.getAttr`: resolve the time (the
requested time, else the current oracle state; forced to "start" for a
constant key), return a cache hit, otherwise `gotoState` and perceive a
fresh percept, caching it when the resolved time is a named state. -/
def getAttr (n : ONode) (curr : Option String) (key : String)
    (optTime : Option String) : AttrPercept × ONode :=
  let t0 := match optTime with | some t => some t | none => curr
  let t := if objAttrConstant key then some "start" else t0
  match t with
  | some tv =>
    match lookupAttr n.attrCache tv key with
    | some p => (p, n)
    | none =>
      (⟨n.fresh, key, some tv⟩,
       { n with
         attrCache := (tv, key, (⟨n.fresh, key, some tv⟩ : AttrPercept)) :: n.attrCache
         fresh := n.fresh + 1 })
  | none => ((⟨n.fresh, key, none⟩ : AttrPercept), { n with fresh := n.fresh + 1 })

/-- Translation of `ObjectNode.prototype.getRel` (without `get_all` and
`cache_only`, which the claims do not touch): resolve the time the same
way, scan the cached relation list for the entry with this `other`, return
the hit, otherwise perceive a fresh relation percept and push it onto the
cached list when the resolved time is a named state. -/
def getRel (n : ONode) (curr : Option String) (key : String)
    (optTime : Option String) (other : ℕ) : RelPercept × ONode :=
  let t0 := match optTime with | some t => some t | none => curr
  let t := if objRelConstant key then some "start" else t0
  match t with
  | some tv =>
    match ((lookupRelList n.relCache tv key).getD []).find? (fun r => r.other == other) with
    | some r => (r, n)
    | none =>
      (⟨n.fresh, key, other, some tv⟩,
       { n with
         relCache := setRelList n.relCache tv key
           ((lookupRelList n.relCache tv key).getD [] ++
             [(⟨n.fresh, key, other, some tv⟩ : RelPercept)])
         fresh := n.fresh + 1 })
  | none => ((⟨n.fresh, key, other, none⟩ : RelPercept), { n with fresh := n.fresh + 1 })

theorem lookupAttr_cons_self (c : List (String × String × AttrPercept)) (t k : String)
    (p : AttrPercept) : lookupAttr ((t, k, p) :: c) t k = some p := by
  simp [lookupAttr]

theorem lookupRelList_set_self (c : List (String × String × List RelPercept)) (t k : String)
    (l : List RelPercept) : lookupRelList (setRelList c t k l) t k = some l := by
  induction c with
  | nil => simp [setRelList, lookupRelList]
  | cons e rest ih =>
    by_cases he : (e.1 == t && e.2.1 == k) = true
    · simp [setRelList, he, lookupRelList]
    · simp only [setRelList, he, if_false, Bool.false_eq_true]
      simpa [lookupRelList, List.find?, he] using ih

theorem find?_append_none {α : Type} {p : α → Bool} {l1 : List α}
    (h : l1.find? p = none) (l2 : List α) : (l1 ++ l2).find? p = l2.find? p := by
  induction l1 with
  | nil => simp
  | cons a rest ih =>
    rcases hp : p a with _ | _
    · simp only [List.cons_append, List.find?_cons, hp] at h ⊢
      exact ih h
    · simp [List.find?_cons, hp] at h

/-- C5: for a constant attribute key and a constant relation key, two
successive gets at arbitrary requested times both resolve against the
"start" cache slot and return the identical percept (same creation
identifier); for relations this holds per `other` object. -/
theorem constant_get_resolves_to_start (n : ONode) (c1 c2 : Option String)
    (akey rkey : String) (t1 t2 : String) (other : ℕ)
    (ha : objAttrConstant akey = true) (hr : objRelConstant rkey = true) :
    (let p1 := getAttr n c1 akey (some t1)
     let p2 := getAttr p1.2 c2 akey (some t2)
     p2.1 = p1.1 ∧ lookupAttr p1.2.attrCache "start" akey = some p1.1) ∧
    (let q1 := getRel n c1 rkey (some t1) other
     let q2 := getRel q1.2 c2 rkey (some t2) other
     q2.1 = q1.1 ∧
       ((lookupRelList q1.2.relCache "start" rkey).getD []).find?
         (fun r => r.other == other) = some q1.1) := by
  constructor
  · rcases hl : lookupAttr n.attrCache "start" akey with _ | p <;>
      simp [getAttr, ha, hl, lookupAttr_cons_self]
  · rcases hL : lookupRelList n.relCache "start" rkey with _ | L
    · simp [getRel, hr, hL, lookupRelList_set_self]
    · rcases hf : L.find? (fun r => r.other == other) with _ | r
      · simp [getRel, hr, hL, hf, lookupRelList_set_self, find?_append_none hf]
      · simp [getRel, hr, hL, hf]

/-- Witness for C5: a fresh node, the constant attribute "shape" and the
constant relation "hits", queried at the times "end" and then "mid". -/
theorem constant_get_resolves_to_start_witness :
    (let p1 := getAttr ⟨[], [], 0⟩ none "shape" (some "end")
     let p2 := getAttr p1.2 none "shape" (some "mid")
     p2.1 = p1.1 ∧ lookupAttr p1.2.attrCache "start" "shape" = some p1.1) ∧
    (let q1 := getRel ⟨[], [], 0⟩ none "hits" (some "end") 5
     let q2 := getRel q1.2 none "hits" (some "mid") 5
     q2.1 = q1.1 ∧
       ((lookupRelList q1.2.relCache "start" "hits").getD []).find?
         (fun r => r.other == 5) = some q1.1) :=
  constant_get_resolves_to_start ⟨[], [], 0⟩ none none "shape" "hits" "end" "mid" 5 rfl rfl

/-- Cache well-formedness: every cached attribute percept records the time
slot it is stored under as its perception state.  Every entry the system
itself inserts satisfies this (`getAttr` caches only what it perceives
after `gotoState(o.time)`). -/
def attrCacheWF (c : List (String × String × AttrPercept)) : Bool :=
  c.all fun e => e.2.2.perceivedAt == some e.1

theorem lookupAttr_perceivedAt_of_wf {c : List (String × String × AttrPercept)}
    {t k : String} {p : AttrPercept} (hwf : attrCacheWF c = true)
    (h : lookupAttr c t k = some p) : p.perceivedAt = some t := by
  unfold lookupAttr at h
  rcases hfind : c.find? (fun e => e.1 == t && e.2.1 == k) with _ | e <;>
    rw [hfind] at h <;> simp at h
  have hmem := List.mem_of_find?_eq_some hfind
  have hpred := List.find?_some hfind
  simp only [Bool.and_eq_true, beq_iff_eq] at hpred
  have hall := (List.all_eq_true.mp hwf) e hmem
  simp only [beq_iff_eq] at hall
  rw [← h, hall, hpred.1]

/-- C10: the moves attribute is registered constant, so a get at any
requested time T resolves against and caches under the "start" slot, and
the percept returned was perceived in the "start" state (with its 0.1 s
look-ahead) — never freshly measured in the requested state. -/
theorem moves_resolves_and_caches_at_start (n : ONode) (curr : Option String)
    (T : String) (hwf : attrCacheWF n.attrCache = true) :
    objAttrConstant "moves" = true ∧
    (let r := getAttr n curr "moves" (some T)
     r.1.perceivedAt = some "start" ∧
     lookupAttr r.2.attrCache "start" "moves" = some r.1) := by
  refine ⟨rfl, ?_⟩
  rcases hl : lookupAttr n.attrCache "start" "moves" with _ | p
  · simp [getAttr, hl, lookupAttr_cons_self, objAttrConstant]
  · have hp : p.perceivedAt = some "start" := lookupAttr_perceivedAt_of_wf hwf hl
    simp [getAttr, hl, hp, objAttrConstant]

/-- Witness for C10: a fresh node queried for "moves" at the "end" state. -/
theorem moves_resolves_and_caches_at_start_witness :
    objAttrConstant "moves" = true ∧
    (let r := getAttr ⟨[], [], 0⟩ none "moves" (some "end")
     r.1.perceivedAt = some "start" ∧
     lookupAttr r.2.attrCache "start" "moves" = some r.1) :=
  moves_resolves_and_caches_at_start ⟨[], [], 0⟩ none "end" rfl

/-! ## Selector matchers (Selector.AttrMatcher, Selector.RelMatcher) -/

/-- A `Selector.AttrMatcher`: key, label, active flag, time and target type
("object" or "group"; in the source the type and constant fields are derived
from the registries at construction time). -/
structure AttrMatcher where
  key : String
  label : String
  active : Bool
  time : String
  type : String
deriving DecidableEq

/-- A nested partner selector (`other_sel`).  RelMatchers inside the partner
selector are disallowed (`RelMatcher.matches` throws on them), so it carries
the unique flag and attribute matchers only. -/
structure Sel0 where
  unique : Bool
  obj_attrs : List AttrMatcher
  grp_attrs : List AttrMatcher
deriving DecidableEq

/-- A `Selector.RelMatcher`. -/
structure RelMatcherS where
  other_sel : Sel0
  key : String
  label : String
  active : Bool
  time : String
deriving DecidableEq

/-- A `Selector`: the unique flag and a conjunction of object attribute,
group attribute and relation matchers. -/
structure SelectorS where
  unique : Bool
  obj_attrs : List AttrMatcher
  grp_attrs : List AttrMatcher
  rels : List RelMatcherS
deriving DecidableEq

/-- A scene as the matchers see it: the object nodes, and for every node,
feature key and resolved time the label and activity that the percept
delivered by `getAttr`/`getRel` reports (perception is total — on a cache
miss the percept is created on the spot). -/
structure SceneModel where
  objs : List ℕ
  attrLabel : ℕ → String → String → String
  attrActivity : ℕ → String → String → ℚ
  relLabel : ℕ → ℕ → String → String → String
  relActivity : ℕ → ℕ → String → String → ℚ

/-- Translation of `Selector.AttrMatcher.prototype.matches`: fetch the
attribute at the matcher's time (constant keys resolve to "start" inside
`getAttr`), then compare the activity against the 0.5 activation threshold
with the requested polarity and compare the label. -/
def attrMatcherMatches (sc : SceneModel) (m : AttrMatcher) (node : ℕ) : Bool :=
  (decide (sc.attrActivity node m.key (if objAttrConstant m.key then "start" else m.time)
      ≥ 1/2) == m.active) &&
  (sc.attrLabel node m.key (if objAttrConstant m.key then "start" else m.time) == m.label)

/-- Translation of `Selector.prototype.matchesObject` the way
`RelMatcher.matches` invokes it (a pair test is always supplied, so the
relation matchers of the partner selector are not consulted): all object
attribute matchers must match and the test must accept the node. -/
def sel0MatchesObject (sc : SceneModel) (sel : Sel0) (node : ℕ) (test : ℕ → Bool) : Bool :=
  (sel.obj_attrs.all fun a => attrMatcherMatches sc a node) && test node

/-- The pair test `RelMatcher.matches` builds: reject the node itself, then
fetch the relation percept from `node` to `other` at the matcher's time
(constant keys resolve to "start" inside `getRel`) and compare activity
polarity and label. -/
def relPairTest (sc : SceneModel) (m : RelMatcherS) (node other : ℕ) : Bool :=
  if other == node then false
  else
    (decide (sc.relActivity node other m.key
        (if objRelConstant m.key then "start" else m.time) ≥ 1/2) == m.active) &&
    (sc.relLabel node other m.key
        (if objRelConstant m.key then "start" else m.time) == m.label)

/-- Translation of `Selector.RelMatcher.prototype.matches` with the default
candidate set (`others` not passed: every scene node except `node`): filter
the candidates through the partner selector with the pair test; a negated
matcher requires every candidate to pass, a unique partner selector requires
exactly one, otherwise at least one. -/
def relMatcherMatches (sc : SceneModel) (m : RelMatcherS) (node : ℕ) : Bool :=
  let others := sc.objs.filter fun o => o != node
  let matching := others.filter fun other =>
    sel0MatchesObject sc m.other_sel other (relPairTest sc m node)
  if !m.active then matching.length == others.length
  else if m.other_sel.unique && !(matching.length == 1) then false
  else decide (matching.length > 0)

/-- Object `other` stands in the matcher's named relation to `node`: the
percept from `node` to `other` carries the matcher's label with activity at
or above the 0.5 activation threshold. -/
def standsInRel (sc : SceneModel) (m : RelMatcherS) (node other : ℕ) : Bool :=
  (sc.relLabel node other m.key (if objRelConstant m.key then "start" else m.time)
      == m.label) &&
  decide (sc.relActivity node other m.key
      (if objRelConstant m.key then "start" else m.time) ≥ 1/2)

/-- A scene for the C3 counterexample: two objects; every attribute percept
has label "x" and activity 0, every relation percept has label "close" and
activity 0 (so nothing stands in any relation to anything). -/
def negScene : SceneModel :=
  ⟨[0, 1], fun _ _ _ => "x", fun _ _ _ => 0, fun _ _ _ _ => "close", fun _ _ _ _ => 0⟩

/-- A negated close-matcher whose partner selector demands a circle. -/
def negMatcher : RelMatcherS :=
  ⟨⟨false, [⟨"shape", "circle", true, "start", "object"⟩], []⟩, "close", "close", false, "start"⟩

/-- C3 counterexample: a negated RelMatcher is not a pure universal negation
of the relation.  In `negScene` no candidate stands in the close relation to
node 0, yet `matches` returns false, because the candidate also has to pass
the partner selector's attribute matchers (here: being a circle). -/
theorem relmatcher_negation_counterexample :
    ¬ (relMatcherMatches negScene negMatcher 0 = true ↔
       ∀ o ∈ negScene.objs.filter (fun o => o != 0),
         standsInRel negScene negMatcher 0 o = false) := by
  intro hiff
  have hstands : ∀ o ∈ negScene.objs.filter (fun o => o != 0),
      standsInRel negScene negMatcher 0 o = false := by
    intro o _
    simp only [standsInRel, negScene, negMatcher, objRelConstant]
    norm_num
  have hm := hiff.mpr hstands
  have hfalse : relMatcherMatches negScene negMatcher 0 = false := by
    simp only [relMatcherMatches, negScene, negMatcher, sel0MatchesObject,
      attrMatcherMatches, relPairTest, objRelConstant, objAttrConstant]
    norm_num
  rw [hfalse] at hm
  exact Bool.false_ne_true hm

theorem filter_length_eq_iff {α : Type} (p : α → Bool) (l : List α) :
    ((l.filter p).length = l.length) ↔ ∀ a ∈ l, p a = true := by
  constructor
  · intro h a ha
    have heq : l.filter p = l := (List.filter_sublist l).eq_of_length h
    rw [← heq] at ha
    exact List.of_mem_filter ha
  · intro h
    rw [List.filter_eq_self.mpr h]

/-- C3 (amended): a RelMatcher with `active = false` and the default
candidate set is true for `node` iff every candidate `other` both passes the
partner selector's object attribute matchers and carries the matcher's label
with activity below the 0.5 threshold — the universal quantification runs
over the partner selector's attribute filter as well, not only over the
relation percept. -/
theorem relmatcher_negation_universal (sc : SceneModel) (m : RelMatcherS) (node : ℕ)
    (hact : m.active = false) :
    relMatcherMatches sc m node = true ↔
      ∀ o ∈ sc.objs.filter (fun o => o != node),
        (m.other_sel.obj_attrs.all fun a => attrMatcherMatches sc a o) = true ∧
        sc.relLabel node o m.key (if objRelConstant m.key then "start" else m.time)
          = m.label ∧
        sc.relActivity node o m.key (if objRelConstant m.key then "start" else m.time)
          < 1/2 := by
  unfold relMatcherMatches
  rw [hact]
  simp only [Bool.not_false, if_true, beq_iff_eq]
  rw [filter_length_eq_iff]
  refine forall₂_congr fun o ho => ?_
  have hne : (o == node) = false := by
    have := (List.mem_filter.mp ho).2
    simpa [bne] using this
  unfold sel0MatchesObject relPairTest
  rw [hne, hact]
  simp only [Bool.false_eq_true, if_false, Bool.and_eq_true, beq_iff_eq,
    decide_eq_true_eq, decide_eq_false_iff_not, not_le, and_assoc]
  tauto

/-- A scene for the C3 witness: three objects, all relation percepts carry
label "close" with activity 0. -/
def negSceneW : SceneModel :=
  ⟨[0, 1, 2], fun _ _ _ => "x", fun _ _ _ => 0, fun _ _ _ _ => "close", fun _ _ _ _ => 0⟩

/-- A negated close-matcher with a blank partner selector. -/
def negMatcherW : RelMatcherS :=
  ⟨⟨false, [], []⟩, "close", "close", false, "start"⟩

/-- Witness for C3 (amended): with a blank partner selector and no active
close percepts, the negated matcher accepts node 0. -/
theorem relmatcher_negation_universal_witness :
    relMatcherMatches negSceneW negMatcherW 0 = true :=
  (relmatcher_negation_universal negSceneW negMatcherW 0 rfl).mpr
    (fun o _ => ⟨rfl, rfl, by norm_num [negSceneW]⟩)

/-! ## Selector merge and equality (Selector.mergedWith, Selector.equals) -/

/-- Translation of `Selector.AttrMatcher.prototype.equals`. -/
def amEquals (a b : AttrMatcher) : Bool :=
  a.key == b.key && a.label == b.label && a.active == b.active && a.time == b.time

/-- Translation of `Selector.prototype.equals` on a rel-free nested
selector: the three length checks (the relation lists are empty on both
sides) and the one-directional every-some comparisons of the source. -/
def sel0Equals (a b : Sel0) : Bool :=
  a.obj_attrs.length == b.obj_attrs.length &&
  a.grp_attrs.length == b.grp_attrs.length &&
  (a.grp_attrs.all fun x => b.grp_attrs.any (amEquals x)) &&
  (a.obj_attrs.all fun x => b.obj_attrs.any (amEquals x))

/-- Translation of `Selector.RelMatcher.prototype.equals`. -/
def rmEquals (a b : RelMatcherS) : Bool :=
  a.key == b.key && a.label == b.label && a.active == b.active && a.time == b.time &&
    sel0Equals a.other_sel b.other_sel

/-- Translation of `Selector.prototype.equals` (the null and identity
shortcuts of the source do not arise on plain values): equal lengths of all
three matcher lists, and every matcher of the left selector equal to some
matcher of the right one. -/
def selEquals (a b : SelectorS) : Bool :=
  a.obj_attrs.length == b.obj_attrs.length &&
  a.grp_attrs.length == b.grp_attrs.length &&
  a.rels.length == b.rels.length &&
  (a.grp_attrs.all fun x => b.grp_attrs.any (amEquals x)) &&
  (a.obj_attrs.all fun x => b.obj_attrs.any (amEquals x)) &&
  (a.rels.all fun x => b.rels.any (rmEquals x))

/-- The dedup test of `Selector.prototype.add_attr`: same key and same time.
The third conjunct of the source, `attr.type === attr.type`, compares a
value with itself and is identically true, so it is omitted. -/
def amSame (a m : AttrMatcher) : Bool :=
  a.key == m.key && a.time == m.time

/-- The dedup test of `Selector.prototype.add_rel`: same key, same time and
equal partner selectors. -/
def rmSame (a m : RelMatcherS) : Bool :=
  a.key == m.key && a.time == m.time && sel0Equals a.other_sel m.other_sel

/-- The replace-or-append loop shared by `add_attr` and `add_rel`: replace
the first entry the dedup test relates to `m` by `m` (later wins), append
`m` when there is none. -/
def addBy {α : Type} (same : α → α → Bool) (m : α) : List α → List α
  | [] => [m]
  | a :: l => if same a m then m :: l else a :: addBy same m l

/-- Translation of `Selector.prototype.add_attr`: dispatch on the matcher's
target type, then replace-or-append. -/
def add_attr (s : SelectorS) (m : AttrMatcher) : SelectorS :=
  if m.type == "group" then { s with grp_attrs := addBy amSame m s.grp_attrs }
  else { s with obj_attrs := addBy amSame m s.obj_attrs }

/-- Translation of `Selector.prototype.add_rel`. -/
def add_rel (s : SelectorS) (m : RelMatcherS) : SelectorS :=
  { s with rels := addBy rmSame m s.rels }

/-- The blank selector `new Selector()` that `mergedWith` starts from
(`unique` defaults to false). -/
def blankSelector : SelectorS :=
  ⟨false, [], [], []⟩

/-- Translation of `Selector.prototype.mergedWith`: starting from a blank
selector, `add_attr` both object attribute lists, then both group attribute
lists, then `add_rel` both relation lists. -/
def mergedWith (a b : SelectorS) : SelectorS :=
  (a.rels ++ b.rels).foldl add_rel
    (((a.obj_attrs ++ b.obj_attrs) ++ (a.grp_attrs ++ b.grp_attrs)).foldl add_attr
      blankSelector)

/-- Reachable-state invariant of selectors built through the
`add_attr`/`add_rel` API: the dedup test never relates two stored matchers,
and every attribute matcher sits in the list its target type dispatches to. -/
def selWF (s : SelectorS) : Prop :=
  s.obj_attrs.Pairwise (fun a b => amSame a b = false) ∧
  s.grp_attrs.Pairwise (fun a b => amSame a b = false) ∧
  s.rels.Pairwise (fun a b => rmSame a b = false) ∧
  (∀ m ∈ s.obj_attrs, (m.type == "group") = false) ∧
  (∀ m ∈ s.grp_attrs, (m.type == "group") = true)

instance (s : SelectorS) : Decidable (selWF s) := by
  unfold selWF
  infer_instance

theorem addBy_not_found {α : Type} (same : α → α → Bool) (m : α) (l : List α)
    (h : ∀ a ∈ l, same a m = false) : addBy same m l = l ++ [m] := by
  induction l with
  | nil => rfl
  | cons a l ih =>
    have ha := h a (List.mem_cons_self a l)
    simp [addBy, ha, ih fun x hx => h x (List.mem_cons_of_mem a hx)]

theorem addBy_mem_self {α : Type} (same : α → α → Bool) (m : α) (l : List α)
    (hrefl : same m m = true) (hp : l.Pairwise fun a b => same a b = false)
    (hm : m ∈ l) : addBy same m l = l := by
  induction l with
  | nil => cases hm
  | cons a l ih =>
    rcases List.mem_cons.mp hm with rfl | hm2
    · simp [addBy, hrefl]
    · have ha : same a m = false := (List.pairwise_cons.mp hp).1 m hm2
      simp [addBy, ha, ih (List.pairwise_cons.mp hp).2 hm2]

theorem foldl_addBy_fresh {α : Type} (same : α → α → Bool) (l : List α) (acc : List α)
    (hp : (acc ++ l).Pairwise fun a b => same a b = false) :
    l.foldl (fun acc m => addBy same m acc) acc = acc ++ l := by
  induction l generalizing acc with
  | nil => simp
  | cons m l ih =>
    have hnotin : ∀ a ∈ acc, same a m = false := fun a ha =>
      (List.pairwise_append.mp hp).2.2 a ha m (List.mem_cons_self m l)
    have hp2 : ((acc ++ [m]) ++ l).Pairwise (fun a b => same a b = false) := by
      simpa [List.append_assoc] using hp
    simp only [List.foldl_cons]
    rw [addBy_not_found same m acc hnotin, ih (acc ++ [m]) hp2]
    simp

theorem foldl_addBy_replay {α : Type} (same : α → α → Bool) (l : List α) (base : List α)
    (h : ∀ m ∈ l, addBy same m base = base) :
    l.foldl (fun acc m => addBy same m acc) base = base := by
  induction l with
  | nil => rfl
  | cons m l ih =>
    simp only [List.foldl_cons]
    rw [h m (List.mem_cons_self m l)]
    exact ih fun x hx => h x (List.mem_cons_of_mem m hx)

theorem foldl_addBy_twice {α : Type} (same : α → α → Bool) (l : List α)
    (hrefl : ∀ m ∈ l, same m m = true)
    (hp : l.Pairwise fun a b => same a b = false) :
    (l ++ l).foldl (fun acc m => addBy same m acc) [] = l := by
  rw [List.foldl_append]
  have h1 : l.foldl (fun acc m => addBy same m acc) [] = l := by
    simpa using foldl_addBy_fresh same l [] (by simpa using hp)
  rw [h1]
  exact foldl_addBy_replay same l l fun m hm =>
    addBy_mem_self same m l (hrefl m hm) hp hm

theorem amSame_refl (m : AttrMatcher) : amSame m m = true := by
  simp [amSame]

theorem amEquals_refl (m : AttrMatcher) : amEquals m m = true := by
  simp [amEquals]

theorem listSelfAllAny {α : Type} (eq : α → α → Bool) (l : List α)
    (hrefl : ∀ x ∈ l, eq x x = true) : (l.all fun x => l.any (eq x)) = true := by
  rw [List.all_eq_true]
  intro x hx
  rw [List.any_eq_true]
  exact ⟨x, hx, hrefl x hx⟩

theorem sel0Equals_refl (s : Sel0) : sel0Equals s s = true := by
  unfold sel0Equals
  rw [listSelfAllAny amEquals s.obj_attrs fun x _ => amEquals_refl x,
    listSelfAllAny amEquals s.grp_attrs fun x _ => amEquals_refl x]
  simp

theorem rmSame_refl (m : RelMatcherS) : rmSame m m = true := by
  simp [rmSame, sel0Equals_refl]

theorem rmEquals_refl (m : RelMatcherS) : rmEquals m m = true := by
  simp [rmEquals, sel0Equals_refl]

theorem foldl_add_attr_obj (l : List AttrMatcher)
    (h : ∀ m ∈ l, (m.type == "group") = false) (s : SelectorS) :
    l.foldl add_attr s
      = { s with obj_attrs := l.foldl (fun acc m => addBy amSame m acc) s.obj_attrs } := by
  induction l generalizing s with
  | nil => rfl
  | cons m l ih =>
    have hm := h m (List.mem_cons_self m l)
    simp only [List.foldl_cons]
    rw [ih fun x hx => h x (List.mem_cons_of_mem m hx)]
    simp [add_attr, hm]

theorem foldl_add_attr_grp (l : List AttrMatcher)
    (h : ∀ m ∈ l, (m.type == "group") = true) (s : SelectorS) :
    l.foldl add_attr s
      = { s with grp_attrs := l.foldl (fun acc m => addBy amSame m acc) s.grp_attrs } := by
  induction l generalizing s with
  | nil => rfl
  | cons m l ih =>
    have hm := h m (List.mem_cons_self m l)
    simp only [List.foldl_cons]
    rw [ih fun x hx => h x (List.mem_cons_of_mem m hx)]
    simp [add_attr, hm]

theorem foldl_add_rel (l : List RelMatcherS) (s : SelectorS) :
    l.foldl add_rel s
      = { s with rels := l.foldl (fun acc m => addBy rmSame m acc) s.rels } := by
  induction l generalizing s with
  | nil => rfl
  | cons m l ih =>
    simp only [List.foldl_cons]
    rw [ih]
    rfl

/-- C9: merging a selector with itself produces a selector `equals` reports
equal to the original.  The hypothesis is the reachable-state invariant of
the `add_attr`/`add_rel` construction API: no two stored matchers share a
dedup key and attribute matchers sit in the list their type dispatches to. -/
theorem selector_merge_idempotent (s : SelectorS) (h : selWF s) :
    selEquals (mergedWith s s) s = true := by
  obtain ⟨hpo, hpg, hpr, hto, htg⟩ := h
  have hobj2 : ∀ m ∈ s.obj_attrs ++ s.obj_attrs, (m.type == "group") = false := fun m hm =>
    (List.mem_append.mp hm).elim (hto m) (hto m)
  have hgrp2 : ∀ m ∈ s.grp_attrs ++ s.grp_attrs, (m.type == "group") = true := fun m hm =>
    (List.mem_append.mp hm).elim (htg m) (htg m)
  have e1 : ((s.obj_attrs ++ s.obj_attrs) ++ (s.grp_attrs ++ s.grp_attrs)).foldl add_attr
      blankSelector = (⟨false, s.obj_attrs, s.grp_attrs, []⟩ : SelectorS) := by
    rw [List.foldl_append, foldl_add_attr_obj _ hobj2, foldl_add_attr_grp _ hgrp2]
    show (⟨false,
      (s.obj_attrs ++ s.obj_attrs).foldl (fun acc m => addBy amSame m acc) [],
      (s.grp_attrs ++ s.grp_attrs).foldl (fun acc m => addBy amSame m acc) [],
      []⟩ : SelectorS) = _
    rw [foldl_addBy_twice amSame s.obj_attrs (fun m _ => amSame_refl m) hpo,
      foldl_addBy_twice amSame s.grp_attrs (fun m _ => amSame_refl m) hpg]
  have hmerge : mergedWith s s = ⟨false, s.obj_attrs, s.grp_attrs, s.rels⟩ := by
    unfold mergedWith
    rw [e1, foldl_add_rel]
    show (⟨false, s.obj_attrs, s.grp_attrs,
      (s.rels ++ s.rels).foldl (fun acc m => addBy rmSame m acc) []⟩ : SelectorS) = _
    rw [foldl_addBy_twice rmSame s.rels (fun m _ => rmSame_refl m) hpr]
  rw [hmerge]
  unfold selEquals
  rw [listSelfAllAny amEquals s.obj_attrs fun x _ => amEquals_refl x,
    listSelfAllAny amEquals s.grp_attrs fun x _ => amEquals_refl x,
    listSelfAllAny rmEquals s.rels fun x _ => rmEquals_refl x]
  simp

/-- A concrete selector built through the API: two object attribute
matchers, one group attribute matcher and one relation matcher. -/
def mergeWitnessSel : SelectorS :=
  ⟨false,
   [⟨"small", "small", true, "start", "object"⟩,
    ⟨"shape", "square", true, "end", "object"⟩],
   [⟨"close", "close", true, "start", "group"⟩],
   [⟨⟨false, [], []⟩, "left_of", "left-of", true, "start"⟩]⟩

/-- Witness for C9 on `mergeWitnessSel`. -/
theorem selector_merge_idempotent_witness :
    selEquals (mergedWith mergeWitnessSel mergeWitnessSel) mergeWitnessSel = true :=
  selector_merge_idempotent mergeWitnessSel (by decide)

end PhysPerc
